import Mathlib

/-!
Shallow embedding of the Manuscript-Pilot application (a browser-based
assistant for preparing academic manuscripts) and proofs about its
behaviour.

The embedding covers:
* the service layer `src/services/geminiService.ts` (prompt construction,
  request construction, model selection, catch-based error handling);
* the UI state machines of the Editor panel (`src/components/Editor.tsx`),
  the ChatAssistant panel, and the FigureCheck panel (`src/unnamed/part_003`).

Modelling conventions:
* JavaScript strings are Lean `String`s; `undefined`-able strings are
  `Option String`; JS truthiness of a possibly-undefined string is
  `jsTruthy` (both `undefined` and `""` are falsy).
* The external generative-AI API is an oracle passed to each function:
  a function from the constructed request to an outcome (`ok` with a
  response value, or `thrown` when the call throws).  Each service
  function also returns the list of requests it issued and the list of
  console-error messages it logged, so that call counts, error logging
  and fallback substitution are all visible in the model.
* `JSON.parse` of structured responses is an oracle `String → Option _`
  (`none` models a parse that throws).
* `Date.now()` is a clock value `now : Nat` supplied to each handler;
  the `.toString()` ids derived from it are modelled as the numeric
  values themselves (decimal printing of naturals is injective, so the
  string detour is dropped).  Successive id allocations inside one
  handler use `now`, `now + 1`, `now + 2` as in the source.
* Chat session objects are opaque external handles, modelled as `Nat`
  identifiers; the keyed session map of the Editor is an association
  list.
* React `useState` state of a component is a `State` structure; an async
  handler is a function `State → ... → State × List _` returning the
  final state once the handler has run to completion together with the
  external requests it issued.  The floating-point `temperature`
  generation knob (0.3 / 0.6) and the declared JSON response schemas
  are metadata of the request configuration that no claim touches; the
  configuration record keeps the `responseMimeType` and
  `systemInstruction` and `imageConfig` parts that the claims depend on.
-/

/-- JS truthiness of a possibly-undefined string: `undefined` and `""` are falsy. -/
def jsTruthy : Option String → Bool
  | some s => s ≠ ""
  | none => false

/-- JS `a || b` where `a` is a possibly-undefined string and `b` a string default. -/
def jsOrStr (a : Option String) (b : String) : String :=
  match a with
  | some s => if s = "" then b else s
  | none => b

/-- Character-list version of substring containment (`leads` is "is an initial run of"). -/
def listLeads : List Char → List Char → Bool
  | [], _ => true
  | _ :: _, [] => false
  | a :: as, b :: bs => a = b && listLeads as bs

/-- Does `sub` occur as a contiguous run inside `s`? -/
def listHasRun (sub : List Char) : List Char → Bool
  | [] => listLeads sub []
  | b :: bs => listLeads sub (b :: bs) || listHasRun sub bs

/-- JS `s.includes(sub)`. -/
def strIncludes (s sub : String) : Bool := listHasRun sub.data s.data

/-- JS `s.substring(0, n)`. -/
def jsSubstring0 (s : String) (n : Nat) : String := ⟨s.data.take n⟩

/-- JS `s.trim()`: strip leading and trailing whitespace (computable by
kernel reduction, unlike the position-based `String.trim`). -/
def jsTrim (s : String) : String :=
  ⟨((s.data.dropWhile Char.isWhitespace).reverse.dropWhile Char.isWhitespace).reverse⟩

/-- Worker for `jsSplit`: scan left to right, and each time the piece
accumulated so far (kept reversed) ends with the separator, cut it there.
This is the leftmost-first non-overlapping splitting of JS
`String.prototype.split` for a non-empty separator. -/
def jsSplitGo (sepRev : List Char) : List Char → List Char → List (List Char) → List (List Char)
  | [], accRev, pieces => pieces ++ [accRev.reverse]
  | c :: rest, accRev, pieces =>
      let accRev := c :: accRev
      if listLeads sepRev accRev then
        jsSplitGo sepRev rest [] (pieces ++ [(accRev.drop sepRev.length).reverse])
      else
        jsSplitGo sepRev rest accRev pieces

/-- JS `s.split(sep)` for a non-empty separator. -/
def jsSplit (s sep : String) : List String :=
  (jsSplitGo sep.data.reverse s.data [] []).map (fun cs => (⟨cs⟩ : String))

/-- JS `s.toLowerCase()` (computable by kernel reduction). -/
def jsToLower (s : String) : String := ⟨s.data.map Char.toLower⟩

/-! ## types.ts -/

/-- `AnalysisType` from `src/types.ts`. -/
inductive AnalysisType where
  | IMPACT_POLISH
  | LOGIC_CHECK
  | CONCISENESS
  | REBUTTAL
deriving DecidableEq, Repr

/-- Message author role, the `'user' | 'model'` union of `src/types.ts`. -/
inductive Role where
  | user
  | model
deriving DecidableEq, Repr

/-- `ChatMessage` from `src/types.ts` (`isStreaming?: boolean` defaults to absent/false). -/
structure ChatMessage where
  id : Nat
  role : Role
  text : String
  isStreaming : Bool := false
deriving DecidableEq, Repr

/-- `CoverLetterParams` as actually used by `CoverLetterGen.tsx` and
`geminiService.ts` (`manuscriptText` plus an optional `editorName`). -/
structure CoverLetterParams where
  title : String
  authorName : String
  affiliation : String
  abstract : String
  manuscriptText : String
  editorName : Option String := none
deriving DecidableEq, Repr

/-- Nested word-count block of `JournalGuidelines`. -/
structure GuidelineWordCounts where
  article : String
  abstract : String
  methods : String
deriving DecidableEq, Repr

/-- Nested formatting block of `JournalGuidelines`. -/
structure GuidelineFormatting where
  figures : String
  references : String
  fonts : String
deriving DecidableEq, Repr

/-- Nested editorial-criteria block of `JournalGuidelines`. -/
structure GuidelineEditorialCriteria where
  scope : String
  novelty : String
  dataRigor : String
deriving DecidableEq, Repr

/-- `JournalGuidelines` from `src/types.ts`. -/
structure JournalGuidelines where
  journalName : String
  wordCounts : GuidelineWordCounts
  formatting : GuidelineFormatting
  editorialCriteria : GuidelineEditorialCriteria
deriving DecidableEq, Repr

/-- `JournalEvaluationResult` from `src/types.ts` (the verdict union is kept as a string). -/
structure JournalEvaluationResult where
  journalName : String
  matchScore : Int
  verdict : String
  strengths : List String
  weaknesses : List String
  editorComments : String
deriving DecidableEq, Repr

/-- The journal-suggestion records parsed by `suggestTargetJournals`
(the `JournalSuggestion` interface of `src/unnamed/part_004`). -/
structure JournalSuggestion where
  name : String
  matchScore : Int
  tier : String
  rationale : String
  qualityAnalysis : String
  advice : String
deriving DecidableEq, Repr

/-! ## The external generation API (request side) -/

/-- One part of a `generateContent` request payload: either an
`inlineData` image part or a text part. -/
inductive ReqPart where
  | inlineData (data : String) (mimeType : String)
  | textPart (text : String)
deriving DecidableEq, Repr

/-- The `imageConfig` block supported by the Pro image model. -/
structure ImageConfig where
  aspectRatio : String
  imageSize : String
deriving DecidableEq, Repr

/-- Request configuration (the parts of `config` the claims depend on). -/
structure GenConfig where
  systemInstruction : Option String := none
  responseMimeType : Option String := none
  imageConfig : Option ImageConfig := none
deriving DecidableEq, Repr

/-- A single `ai.models.generateContent` request: a model name, the
content parts, and the configuration. -/
structure GenRequest where
  model : String
  parts : List ReqPart
  config : GenConfig
deriving DecidableEq, Repr

/-! ## The external generation API (response side) -/

/-- One part of a response candidate: `text?` and/or `inlineData?`
(for the latter only the base64 `data` field is relevant). -/
structure RespPart where
  text : Option String := none
  inlineData : Option String := none
deriving DecidableEq, Repr

/-- A response candidate; `parts` models `candidates[i].content.parts`
(`none` = the `parts` field is undefined). -/
structure Candidate where
  parts : Option (List RespPart) := none
deriving DecidableEq, Repr

/-- A `GenerateContentResponse`: the convenience `text` accessor and the
raw candidate list (`none` = the field is undefined). -/
structure GenResponse where
  text : Option String := none
  candidates : Option (List Candidate) := none
deriving DecidableEq, Repr

/-- Outcome of one `generateContent` call: a response, or the call throws. -/
inductive GenOutcome where
  | ok (resp : GenResponse)
  | thrown
deriving DecidableEq, Repr

/-- Outcome of one `chat.sendMessageStream` call: the arriving chunk
texts in order (each chunk carries an optional `text` field), or the
call throws. -/
inductive ChatOutcome where
  | ok (chunks : List (Option String))
  | thrown
deriving DecidableEq, Repr

/-- What a service-layer function did: its returned value, the external
requests it issued (in order), and the `console.error` tags it logged. -/
structure ServiceOut (α : Type) where
  result : α
  requests : List GenRequest
  logs : List String
deriving DecidableEq, Repr

/-- An API oracle on which every request throws; used to state the
error-handling theorems. -/
def throwingGen : GenRequest → GenOutcome := fun _ => GenOutcome.thrown

/-! ## geminiService.ts -/

def TEXT_MODEL : String := "gemini-3-pro-preview"

def FLASH_IMAGE_MODEL : String := "gemini-2.5-flash-image"

def PRO_IMAGE_MODEL : String := "gemini-3-pro-image-preview"

/-- The `focus`/`tone` pair returned by `getJournalStyleParams`. -/
structure StyleParams where
  focus : String
  tone : String
deriving DecidableEq, Repr

/-- `getJournalStyleParams` from `geminiService.ts`. -/
def getJournalStyleParams (journal : String) : StyleParams :=
  let j := jsToLower journal
  if strIncludes j "nature" || strIncludes j "science" then
    { focus := "Broad conceptual advance, accessibility to non-specialists, and \x27punchy\x27 concise writing.",
      tone := "Authoritative, high-impact, and devoid of unnecessary jargon." }
  else if strIncludes j "cell" || strIncludes j "molecular cell" then
    { focus := "Deep mechanistic insight, logical completeness, and a structured, comprehensive narrative.",
      tone := "Scholarly, detailed, and logically rigorous." }
  else if strIncludes j "journal of cell biology" || strIncludes j "jcb" || strIncludes j "current biology" then
    { focus := "Solid experimental data, clear cell biological mechanisms, and avoiding over-interpretation.",
      tone := "Measured, precise, and data-driven." }
  else
    { focus := "Clarity, novelty within the specific field, and methodological soundness.",
      tone := "Professional and constructive." }

/-- The system instruction of `analyzeManuscriptText`. -/
def analyzeSystemInstruction (targetJournal : String) : String :=
  let style := getJournalStyleParams targetJournal
  "\n    You are a Senior Editor at " ++ targetJournal ++ ". \n    Your role is to assist researchers in refining their manuscripts to meet the specific standards of " ++ targetJournal ++ ".\n    \n    Journal Style Priorities:\n    1. " ++ style.focus ++ "\n    2. Tone: " ++ style.tone ++ "\n    \n    When providing output:\n    - If asking for a rewrite, provide the rewritten text clearly.\n    - Provide a bulleted list of \"Editor\x27s Notes\" explaining *why* changes were made to fit " ++ targetJournal ++ ".\n  "

/-- The per-analysis-type prompt of `analyzeManuscriptText`. -/
def analyzePrompt (text : String) (type : AnalysisType) (targetJournal : String) : String :=
  match type with
  | AnalysisType.IMPACT_POLISH =>
      "\n      Please polish the following text specifically for submission to **" ++ targetJournal ++ "**. \n      \n      Goals:\n      - Enhance the flow and readability.\n      - Ensure the significance is communicated in a way that suits " ++ targetJournal ++ "\x27s audience.\n      - Use active voice.\n      \n      Text to Polish:\n      \"" ++ text ++ "\"\n      "
  | AnalysisType.LOGIC_CHECK =>
      "\n      Analyze the scientific logic of the following text as a reviewer for **" ++ targetJournal ++ "**. \n      Identify potential gaps in reasoning, over-interpretation of data, or places where more experimental evidence might be requested by " ++ targetJournal ++ " reviewers.\n      \n      Text to Analyze:\n      \"" ++ text ++ "\"\n      "
  | AnalysisType.CONCISENESS =>
      "\n      Significantly shorten the following text while retaining all key scientific meaning.\n      Aim for a word count reduction suitable for **" ++ targetJournal ++ "**\x27s strict formatting limits.\n      \n      Text to Shorten:\n      \"" ++ text ++ "\"\n      "
  | AnalysisType.REBUTTAL =>
      "\n        The user has provided a draft response to a reviewer or a specific reviewer comment for a manuscript submitted to **" ++ targetJournal ++ "**.\n        Refine this response to be polite, professional, firm yet conciliatory, adhering to standard conventions.\n        \n        Draft Response/Comment:\n        \"" ++ text ++ "\"\n        "

/-- `analyzeManuscriptText` from `geminiService.ts`: build the prompt,
issue one `generateContent` call, return `response.text` with a fallback,
or a fixed error string when the call throws. -/
def analyzeManuscriptText (text : String) (type : AnalysisType) (targetJournal : String)
    (api : GenRequest → GenOutcome) : ServiceOut String :=
  let req : GenRequest :=
    { model := TEXT_MODEL,
      parts := [ReqPart.textPart (analyzePrompt text type targetJournal)],
      config := { systemInstruction := some (analyzeSystemInstruction targetJournal) } }
  match api req with
  | GenOutcome.ok resp =>
      { result := jsOrStr resp.text "No response generated.", requests := [req], logs := [] }
  | GenOutcome.thrown =>
      { result := "Error: Unable to analyze text at this time. Please check your input and try again.",
        requests := [req], logs := ["Error analyzing text:"] }

/-- The prompt of `generateCoverLetter`; note the manuscript text is
interpolated through `substring(0, 50000)`. -/
def coverLetterPrompt (params : CoverLetterParams) (targetJournal : String) : String :=
  let style := getJournalStyleParams targetJournal
  "\n  Act as a Senior Editor helping to draft a high-impact Cover Letter for submission to **" ++ targetJournal ++ "**.\n  \n  Manuscript Details:\n  - Title: " ++ params.title ++ "\n  - Corresponding Author: " ++ params.authorName ++ "\n  - Affiliation: " ++ params.affiliation ++ "\n  - Editor Name: " ++ jsOrStr params.editorName "the Editor" ++ "\n  \n  Abstract:\n  \"" ++ params.abstract ++ "\"\n\n  Manuscript Content (Intro/Results/Discussion):\n  \"" ++ jsSubstring0 params.manuscriptText 50000 ++ "\"\n\n  Task:\n  1. Analyze the provided Abstract and Manuscript Content to extract the core novelty and conceptual advance.\n  2. Write a compelling cover letter that pitches this specific advance to **" ++ targetJournal ++ "**.\n  \n  Style Guide for " ++ targetJournal ++ ":\n  - Focus: " ++ style.focus ++ "\n  - Tone: " ++ style.tone ++ "\n  \n  Structure:\n  - Standard professional opening.\n  - A strong \"Hook\" paragraph stating the major discovery immediately.\n  - A concise summary of the key findings and why they matter.\n  - A closing statement on why this fits " ++ targetJournal ++ "\x27s scope.\n  - Standard sign-off.\n  "

/-- `generateCoverLetter` from `geminiService.ts`. -/
def generateCoverLetter (params : CoverLetterParams) (targetJournal : String)
    (api : GenRequest → GenOutcome) : ServiceOut String :=
  let req : GenRequest :=
    { model := TEXT_MODEL,
      parts := [ReqPart.textPart (coverLetterPrompt params targetJournal)],
      config := {} }
  match api req with
  | GenOutcome.ok resp =>
      { result := jsOrStr resp.text "Could not generate cover letter.", requests := [req], logs := [] }
  | GenOutcome.thrown =>
      { result := "Error generating cover letter.", requests := [req], logs := ["Error generating cover letter:"] }

/-! ### generateOrEditFigure -/

/-- `!!(base64Image && mimeType)`: an input image is provided exactly when
both the base64 data and the mime type are present and non-empty. -/
def hasInputImage (base64Image mimeType : Option String) : Bool :=
  jsTruthy base64Image && jsTruthy mimeType

/-- The `ratioMap` lookup of the Flash generation path
(`ratioMap[aspectRatio]`, `undefined` when the key is unknown). -/
def ratioMap (aspectRatio : String) : Option String :=
  if aspectRatio = "1:1" then some "square (1:1 aspect ratio)"
  else if aspectRatio = "4:3" then some "standard landscape (4:3 aspect ratio)"
  else if aspectRatio = "16:9" then some "wide landscape (16:9 aspect ratio)"
  else none

/-- The Pro-path prompt of `generateOrEditFigure` (text-to-image, 2K). -/
def figureProPrompt (prompt targetJournal : String) : String :=
  "\n        You are an expert scientific illustrator for **" ++ targetJournal ++ "**. \n        You specialize in creating figures that meet strict academic publication standards.\n        \n        Task: Generate a high-resolution (2K), publication-quality scientific figure.\n        User Request: \"" ++ prompt ++ "\"\n\n        ACADEMIC STANDARDS for " ++ targetJournal ++ ":\n        - **Visual Style**: Flat, vector-graphic aesthetic (like Adobe Illustrator/BioRender).\n        - **Background**: Pure WHITE background. No gradients or textures.\n        - **Typography**: Clean, sans-serif fonts (Arial/Helvetica style). High contrast and legible.\n        - **Color Palette**: Professional, colorblind-safe palettes (e.g., Viridis, Okabe-Ito, or muted journal colors).\n        - **Rigor**: Scientific accuracy is paramount. Diagrams should be schematic and logical.\n      "

/-- The Flash-path prompt of `generateOrEditFigure` (editing mode when an
input image is present, standard generation otherwise). -/
def figureFlashPrompt (prompt targetJournal : String) (hasImg : Bool)
    (imageSize aspectRatio : String) : String :=
  let base := "You are an expert scientific illustrator for **" ++ targetJournal ++ "**."
  if hasImg then
    let p := base ++ "\nUser Request to EDIT/MODIFY this image: \"" ++ prompt ++ "\"\n        \nInstructions:\n        - Modify the provided image to satisfy the user\x27s request.\n        - Maintain strict scientific accuracy and academic style.\n        - Ensure the background remains clean (preferably white).\n        - Provide a brief text summary of changes."
    if imageSize = "2K" then
      p ++ "\nNote: The user requested High Resolution. Please generate the highest quality output possible with clear details."
    else p
  else
    base ++ "\nUser Request to GENERATE a scientific figure: \"" ++ prompt ++ "\"\n        \nACADEMIC REQUIREMENTS:\n        - Style: Professional scientific illustration.\n        - Background: Pure WHITE.\n        - Content: accurate schematic or clear data visualization.\n        - Font: Sans-serif, legible.\n        - No artistic distortions."
      ++ "\nOutput Format: Please generate a " ++ jsOrStr (ratioMap aspectRatio) "square" ++ " image."

/-- The `{ text, modifiedImage? }` value returned by `generateOrEditFigure`. -/
structure FigureResult where
  text : String
  modifiedImage : Option String := none
deriving DecidableEq, Repr

/-- The request built by `generateOrEditFigure`: the input image (when
provided) is pushed first, then the prompt text part; the Pro path also
sets the structured `imageConfig`. -/
def figureRequest (prompt targetJournal aspectRatio imageSize : String)
    (base64Image mimeType : Option String) : GenRequest :=
  let hasImg := hasInputImage base64Image mimeType
  let usePro := imageSize = "2K" && !hasImg
  let model := if usePro then PRO_IMAGE_MODEL else FLASH_IMAGE_MODEL
  let imageParts : List ReqPart :=
    match base64Image, mimeType with
    | some b, some m => if b ≠ "" ∧ m ≠ "" then [ReqPart.inlineData b m] else []
    | _, _ => []
  if usePro then
    { model := model,
      parts := imageParts ++ [ReqPart.textPart (figureProPrompt prompt targetJournal)],
      config := { imageConfig := some { aspectRatio := aspectRatio, imageSize := imageSize } } }
  else
    { model := model,
      parts := imageParts ++
        [ReqPart.textPart (figureFlashPrompt prompt targetJournal hasImg imageSize aspectRatio)],
      config := {} }

/-- The response-iteration loop of `generateOrEditFigure`: concatenate the
text of every part, and keep the last `inlineData` payload seen. -/
def collectFigureParts (ps : List RespPart) : String × Option String :=
  ps.foldl
    (fun acc p =>
      (acc.1 ++ (p.text.getD ""),
       match p.inlineData with
       | some d => some d
       | none => acc.2))
    ("", none)

/-- `generateOrEditFigure` from `geminiService.ts`.  Selects the Pro image
model only for pure 2K text-to-image generation, forces Flash whenever an
input image is provided, issues one `generateContent` call, and falls back
to a fixed error message when anything inside the `try` throws (including
the `candidates[0]` access on an empty candidate array). -/
def generateOrEditFigure (prompt targetJournal aspectRatio imageSize : String)
    (base64Image mimeType : Option String)
    (api : GenRequest → GenOutcome) : ServiceOut FigureResult :=
  let hasImg := hasInputImage base64Image mimeType
  let req := figureRequest prompt targetJournal aspectRatio imageSize base64Image mimeType
  let errorOut : ServiceOut FigureResult :=
    { result := { text := "Error processing figure request. Please ensure you have selected a valid API key." },
      requests := [req], logs := ["Error processing figure:"] }
  let finalize : String → Option String → ServiceOut FigureResult := fun textOutput imageOutput =>
    let textOutput :=
      if textOutput = "" then
        if hasImg ∧ ¬jsTruthy imageOutput then
          "I analyzed the image but did not generate a modification."
        else "Processed figure for " ++ targetJournal ++ "."
      else textOutput
    { result := { text := textOutput, modifiedImage := imageOutput }, requests := [req], logs := [] }
  match api req with
  | GenOutcome.thrown => errorOut
  | GenOutcome.ok resp =>
      match resp.candidates with
      | none => finalize "" none
      | some [] => errorOut
      | some (c0 :: _) =>
          match c0.parts with
          | none => finalize "" none
          | some ps =>
              let acc := collectFigureParts ps
              finalize acc.1 acc.2

/-! ### getJournalGuidelines, suggestTargetJournals, evaluateJournalFit -/

/-- The prompt of `getJournalGuidelines`. -/
def guidelinesPrompt (journalName : String) : String :=
  "\n    Provide a structured summary of the submission guidelines for the academic journal: **" ++ journalName ++ "**.\n    \n    Focus on:\n    1. Typical Word Counts (Abstract, Article).\n    2. Figure/Formatting rules (Fonts, Panels).\n    3. Editorial Criteria (Scope, Novelty).\n\n    Return a JSON object adhering to the schema.\n  "

/-- `getJournalGuidelines` from `geminiService.ts`: one structured-output
call; parses `response.text` when it is truthy; returns `null` when the
call throws, when parsing throws, or when there is no text. -/
def getJournalGuidelines (journalName : String)
    (parseGuidelines : String → Option JournalGuidelines)
    (api : GenRequest → GenOutcome) : ServiceOut (Option JournalGuidelines) :=
  let req : GenRequest :=
    { model := TEXT_MODEL,
      parts := [ReqPart.textPart (guidelinesPrompt journalName)],
      config := { responseMimeType := some "application/json" } }
  match api req with
  | GenOutcome.thrown =>
      { result := none, requests := [req], logs := ["Error fetching guidelines:"] }
  | GenOutcome.ok resp =>
      if jsTruthy resp.text then
        match parseGuidelines (resp.text.getD "") with
        | some g => { result := some g, requests := [req], logs := [] }
        | none => { result := none, requests := [req], logs := ["Error fetching guidelines:"] }
      else { result := none, requests := [req], logs := [] }

/-- The prompt of `suggestTargetJournals`; the full text is interpolated
through `substring(0, 60000)`. -/
def suggestTargetJournalsPrompt (title abstract fullText : String) : String :=
  "\n    You are a Senior Editor and Strategic Publication Consultant.\n    \n    Task: Recommend 3-5 academic journals for the following manuscript.\n    \n    CRITICAL INSTRUCTION:\n    You must perform a ruthless, objective assessment of the \"Scientific Level\" of the text. \n    Do NOT suggest top-tier journals (Nature, Cell, NCB) just because the topic (Scope) matches.\n    Only suggest them if the data quality, depth of mechanism, and conceptual novelty actually meet that bar.\n    \n    Tiers to consider:\n    - **Top Tier (Nature, Cell, Science)**: Paradigm-shifting, massive in vivo data, broad interest.\n    - **High Impact (NCB, Mol Cell, Dev Cell)**: Deep mechanism, complete story, strong novelty.\n    - **Solid Mid-Tier (J Cell Sci, J Biol Chem, MBoC, J Cell Biol)**: Solid execution, incremental advance, or descriptive mechanism.\n    - **Specialized/Reports**: Preliminary data or very niche focus.\n\n    Manuscript Information:\n    Title: \"" ++ title ++ "\"\n    Abstract: \"" ++ abstract ++ "\"\n    Full Manuscript Text (Intro/Results/Discussion):\n    \"" ++ jsSubstring0 fullText 60000 ++ "\"\n    \n    If the paper appears to be a \"Solid Mid-Tier\" quality, primarily suggest those, perhaps with one \"Reach\" option, but explicitly state in the qualityAnalysis why it might fall short of top tier (e.g. \"Lacks in vivo rescue\", \"Mechanism is correlative\").\n\n    Return a JSON array.\n  "

/-- `suggestTargetJournals` from `geminiService.ts`: one structured-output
call; returns the parsed array, or `[]` when the call throws, parsing
throws, or there is no text. -/
def suggestTargetJournals (title abstract fullText : String)
    (parseSuggestions : String → Option (List JournalSuggestion))
    (api : GenRequest → GenOutcome) : ServiceOut (List JournalSuggestion) :=
  let req : GenRequest :=
    { model := TEXT_MODEL,
      parts := [ReqPart.textPart (suggestTargetJournalsPrompt title abstract fullText)],
      config := { responseMimeType := some "application/json" } }
  match api req with
  | GenOutcome.thrown =>
      { result := [], requests := [req], logs := ["Error suggesting journals:"] }
  | GenOutcome.ok resp =>
      if jsTruthy resp.text then
        match parseSuggestions (resp.text.getD "") with
        | some xs => { result := xs, requests := [req], logs := [] }
        | none => { result := [], requests := [req], logs := ["Error suggesting journals:"] }
      else { result := [], requests := [req], logs := [] }

/-- The prompt of `evaluateJournalFit`; the full text is interpolated
through `substring(0, 50000)`. -/
def evaluateJournalFitPrompt (title abstract fullText journalName : String) : String :=
  "\n    Act as a Senior Editor at the journal: \"" ++ journalName ++ "\".\n    \n    Your Task: Evaluate the suitability of the following manuscript for *your* specific journal.\n    \n    CRITICAL: You must distinguish between SCOPE (topic) and LEVEL (quality/impact).\n    - A paper can be perfectly in scope (e.g., cell biology) but rejected because it is \"incremental\" or \"lacks mechanism\".\n    - Be honest. If the text provided is not up to the standard of \"" ++ journalName ++ "\", say so.\n    \n    Manuscript:\n    Title: \"" ++ title ++ "\"\n    Abstract: \"" ++ abstract ++ "\"\n    Partial Full Text: \"" ++ jsSubstring0 fullText 50000 ++ "\"\n\n    Analyze:\n    1. Scope Match.\n    2. Novelty/Impact sufficiency for this tier.\n    3. Rigor/Quality of data presented.\n\n    Return a JSON object.\n  "

/-- `evaluateJournalFit` from `geminiService.ts`: one structured-output
call; returns the parsed object, or `null` when the call throws, parsing
throws, or there is no text. -/
def evaluateJournalFit (title abstract fullText journalName : String)
    (parseEvaluation : String → Option JournalEvaluationResult)
    (api : GenRequest → GenOutcome) : ServiceOut (Option JournalEvaluationResult) :=
  let req : GenRequest :=
    { model := TEXT_MODEL,
      parts := [ReqPart.textPart (evaluateJournalFitPrompt title abstract fullText journalName)],
      config := { responseMimeType := some "application/json" } }
  match api req with
  | GenOutcome.thrown =>
      { result := none, requests := [req], logs := ["Error evaluating journal fit:"] }
  | GenOutcome.ok resp =>
      if jsTruthy resp.text then
        match parseEvaluation (resp.text.getD "") with
        | some r => { result := some r, requests := [req], logs := [] }
        | none => { result := none, requests := [req], logs := ["Error evaluating journal fit:"] }
      else { result := none, requests := [req], logs := [] }

/-! ## Shared UI-state combinators

Each React state update in the components has the shape
`prev.map(x => x.id === k ? f(x) : x)`; `overKeyed` is that shape with the
key projection abstracted, shared between the message lists and the
history list. -/

/-- Map `g` over exactly the elements whose key is `k`. -/
def overKeyed {α : Type} (key : α → Nat) (k : Nat) (g : α → α) (l : List α) : List α :=
  l.map fun x => if key x = k then g x else x

/-- `msgs.map(m => m.id === aiId ? { ...m, text: t } : m)`. -/
def setMsgText (aiId : Nat) (t : String) (msgs : List ChatMessage) : List ChatMessage :=
  overKeyed ChatMessage.id aiId (fun m => { m with text := t }) msgs

/-- `msgs.map(m => m.id === aiId ? { ...m, isStreaming: false } : m)`. -/
def setMsgDone (aiId : Nat) (msgs : List ChatMessage) : List ChatMessage :=
  overKeyed ChatMessage.id aiId (fun m => { m with isStreaming := false }) msgs

/-- The chunk loop of the streaming handlers: `fullText` accumulates the
truthy chunk texts and each truthy chunk rewrites the streamed message to
the accumulated text (`for await (const chunk of resultStream) { ... }`). -/
def streamChunks (aiId : Nat) (fullText : String) (chunks : List (Option String))
    (msgs : List ChatMessage) : List ChatMessage :=
  match chunks with
  | [] => msgs
  | none :: rest => streamChunks aiId fullText rest msgs
  | some t :: rest =>
      if t = "" then streamChunks aiId fullText rest msgs
      else streamChunks aiId (fullText ++ t) rest (setMsgText aiId (fullText ++ t) msgs)

/-- The concatenation, in arrival order, of the text fields of all chunks
(an absent text field contributes nothing). -/
def concatChunks (chunks : List (Option String)) : String :=
  chunks.foldl (fun acc c => acc ++ c.getD "") ""

/-- Association-list lookup for the keyed maps (`Map`/record objects). -/
def assocGet {α : Type} (m : List (Nat × α)) (k : Nat) : Option α :=
  (m.find? (fun p => p.1 = k)).map Prod.snd

/-- Association-list update for the keyed maps. -/
def assocSet {α : Type} (m : List (Nat × α)) (k : Nat) (v : α) : List (Nat × α) :=
  (k, v) :: m.filter (fun p => ¬ p.1 = k)

/-! ## Editor.tsx -/

namespace Editor

/-- The `HistoryItem` interface of `Editor.tsx`. -/
structure HistoryItem where
  id : Nat
  type : AnalysisType
  input : String
  output : String
  timestamp : Nat
  chatMessages : List ChatMessage
  isChatOpen : Bool
  targetJournal : String
deriving DecidableEq, Repr

/-- The `useState`/`useRef` state of the Editor panel.  `chatSessions` is
the keyed `Map` of refinement-chat handles; `nextSession` supplies the
handle of the next externally created `Chat` object. -/
structure State where
  inputText : String
  history : List HistoryItem
  isLoading : Bool
  analysisType : AnalysisType
  expandedInputs : List Nat
  chatSessions : List (Nat × Nat)
  chatInputs : List (Nat × String)
  nextSession : Nat
deriving DecidableEq, Repr

/-- `handleAnalyze`: a no-op on blank input; otherwise one
`analyzeManuscriptText` call whose output is prepended to the history,
with the loading flag cleared at the end. -/
def handleAnalyze (s : State) (targetJournal : String) (now : Nat)
    (api : GenRequest → GenOutcome) : State × List GenRequest :=
  if jsTrim s.inputText = "" then (s, [])
  else
    let out := analyzeManuscriptText s.inputText s.analysisType targetJournal api
    let newItem : HistoryItem :=
      { id := now, type := s.analysisType, input := s.inputText, output := out.result,
        timestamp := now, chatMessages := [], isChatOpen := false,
        targetJournal := targetJournal }
    ({ s with history := newItem :: s.history, isLoading := false }, out.requests)

/-- The `disabled` attribute of the Run Analysis button
(`disabled={isLoading || !inputText.trim()}`). -/
def analyzeButtonDisabled (s : State) : Bool :=
  s.isLoading || jsTrim s.inputText = ""

/-- Clicking the Run Analysis button: a disabled button fires no click
handler, otherwise `handleAnalyze` runs.  This is the only invocation
path for `handleAnalyze` (the input textarea has no key handler). -/
def clickAnalyze (s : State) (targetJournal : String) (now : Nat)
    (api : GenRequest → GenOutcome) : State × List GenRequest :=
  if analyzeButtonDisabled s then (s, []) else handleAnalyze s targetJournal now api

/-- `clearHistory`: once confirmed, empties the history list and clears
the keyed chat-session map. -/
def clearHistory (s : State) (confirm : Bool) : State :=
  if confirm then { s with history := [], chatSessions := [] } else s

/-- The in-order traversal of the history performed by the `toggleChat`
map callback: flips `isChatOpen` of every item with the given id, and on
first opening of an item with no session yet creates a refinement-chat
session for that id (the `chatSessions.current.set` side effect inside
the callback, threaded as the `(sessions, nextSession)` accumulator). -/
def toggleChatGo (itemId : Nat) (acc : List (Nat × Nat) × Nat) :
    List HistoryItem → (List (Nat × Nat) × Nat) × List HistoryItem
  | [] => (acc, [])
  | item :: rest =>
      if item.id = itemId then
        let acc :=
          if assocGet acc.1 itemId = none ∧ item.isChatOpen = false then
            (assocSet acc.1 itemId acc.2, acc.2 + 1)
          else acc
        let r := toggleChatGo itemId acc rest
        (r.1, { item with isChatOpen := !item.isChatOpen } :: r.2)
      else
        let r := toggleChatGo itemId acc rest
        (r.1, item :: r.2)

/-- `toggleChat` of `Editor.tsx`. -/
def toggleChat (s : State) (itemId : Nat) : State :=
  let r := toggleChatGo itemId (s.chatSessions, s.nextSession) s.history
  { s with history := r.2, chatSessions := r.1.1, nextSession := r.1.2 }

/-- `hist.map(item => item.id === itemId ? { ...item, chatMessages: [...item.chatMessages, msg] } : item)`. -/
def addMsgToItem (itemId : Nat) (msg : ChatMessage) (hist : List HistoryItem) : List HistoryItem :=
  overKeyed HistoryItem.id itemId
    (fun item => { item with chatMessages := item.chatMessages ++ [msg] }) hist

/-- The per-chunk history update of `handleSendChat`. -/
def setItemMsgText (itemId aiId : Nat) (t : String) (hist : List HistoryItem) : List HistoryItem :=
  overKeyed HistoryItem.id itemId
    (fun item => { item with chatMessages := setMsgText aiId t item.chatMessages }) hist

/-- The end-of-stream history update of `handleSendChat`. -/
def setItemMsgDone (itemId aiId : Nat) (hist : List HistoryItem) : List HistoryItem :=
  overKeyed HistoryItem.id itemId
    (fun item => { item with chatMessages := setMsgDone aiId item.chatMessages }) hist

/-- The chunk loop of `handleSendChat`, lifted to the history list. -/
def streamChunksH (itemId aiId : Nat) (fullText : String) (chunks : List (Option String))
    (hist : List HistoryItem) : List HistoryItem :=
  match chunks with
  | [] => hist
  | none :: rest => streamChunksH itemId aiId fullText rest hist
  | some t :: rest =>
      if t = "" then streamChunksH itemId aiId fullText rest hist
      else streamChunksH itemId aiId (fullText ++ t) rest (setItemMsgText itemId aiId (fullText ++ t) hist)

/-- `handleSendChat` of `Editor.tsx`: guards on a blank per-item input and
a missing session, appends the user message and a streaming placeholder to
the item's thread, clears the item's input, then streams chunks into the
placeholder (or appends a fixed error message when the stream call throws). -/
def handleSendChat (s : State) (itemId : Nat) (now : Nat)
    (chatApi : Nat → String → ChatOutcome) : State × List (Nat × String) :=
  match assocGet s.chatInputs itemId with
  | none => (s, [])
  | some input =>
      if jsTrim input = "" then (s, [])
      else
        match assocGet s.chatSessions itemId with
        | none => (s, [])
        | some session =>
            let userMsg : ChatMessage := { id := now, role := Role.user, text := input }
            let aiMsgId := now + 1
            let hist1 := addMsgToItem itemId userMsg s.history
            let inputs1 := assocSet s.chatInputs itemId ""
            let hist2 := addMsgToItem itemId
              { id := aiMsgId, role := Role.model, text := "", isStreaming := true } hist1
            match chatApi session input with
            | ChatOutcome.ok chunks =>
                let hist3 := streamChunksH itemId aiMsgId "" chunks hist2
                let hist4 := setItemMsgDone itemId aiMsgId hist3
                ({ s with history := hist4, chatInputs := inputs1 }, [(session, input)])
            | ChatOutcome.thrown =>
                ({ s with
                    history := addMsgToItem itemId
                      { id := now + 2, role := Role.model, text := "Error generating response." } hist2,
                    chatInputs := inputs1 }, [(session, input)])

end Editor

/-! ## ChatAssistant panel -/

namespace ChatAssistant

/-- The `useState`/`useRef` state of the ChatAssistant panel. -/
structure State where
  messages : List ChatMessage
  input : String
  isLoading : Bool
  chatSession : Option Nat
deriving DecidableEq, Repr

/-- `handleSend` of the ChatAssistant: guards on blank input and a missing
session (but NOT on `isLoading`), appends the trimmed user message and a
streaming placeholder, clears the input, sets the loading flag, streams
chunks into the placeholder, then clears the streaming and loading flags
(on a thrown stream call it appends a fixed apology message instead). -/
def handleSend (s : State) (now : Nat)
    (chatApi : Nat → String → ChatOutcome) : State × List (Nat × String) :=
  if jsTrim s.input = "" then (s, [])
  else
    match s.chatSession with
    | none => (s, [])
    | some session =>
        let userText := jsTrim s.input
        let userMsg : ChatMessage := { id := now, role := Role.user, text := userText }
        let aiMsgId := now + 1
        let msgs1 := s.messages ++ [userMsg, { id := aiMsgId, role := Role.model, text := "", isStreaming := true }]
        match chatApi session userText with
        | ChatOutcome.ok chunks =>
            let msgs2 := streamChunks aiMsgId "" chunks msgs1
            let msgs3 := setMsgDone aiMsgId msgs2
            ({ s with messages := msgs3, input := "", isLoading := false }, [(session, userText)])
        | ChatOutcome.thrown =>
            ({ s with
                messages := msgs1 ++
                  [{ id := now + 2, role := Role.model,
                     text := "I apologize, but I encountered an error processing your request. Please try again." }],
                input := "", isLoading := false }, [(session, userText)])

/-- The Enter-key handler of the ChatAssistant textarea: it calls
`handleSend` directly, with no further gating. -/
def pressEnter (s : State) (now : Nat)
    (chatApi : Nat → String → ChatOutcome) : State × List (Nat × String) :=
  handleSend s now chatApi

/-- The `disabled` attribute of the send button
(`disabled={isLoading || !input.trim()}`). -/
def sendButtonDisabled (s : State) : Bool :=
  s.isLoading || jsTrim s.input = ""

/-- Clicking the send button: a disabled button fires no click handler. -/
def clickSend (s : State) (now : Nat)
    (chatApi : Nat → String → ChatOutcome) : State × List (Nat × String) :=
  if sendButtonDisabled s then (s, []) else handleSend s now chatApi

/-- `clearChat`: once confirmed, replaces the session ref with a freshly
created session and replaces the message list with the single
post-clear greeting. -/
def clearChat (s : State) (confirm : Bool) (now : Nat) (freshSession : Nat) : State :=
  if confirm then
    { s with chatSession := some freshSession,
             messages := [{ id := now, role := Role.model,
                            text := "Conversation cleared. How can I help you now?" }] }
  else s

end ChatAssistant

/-! ## FigureCheck panel (src/unnamed/part_003) -/

namespace FigureCheck

/-- The `Message` interface of the FigureCheck panel. -/
structure Message where
  id : Nat
  role : Role
  text : String
  timestamp : Nat
deriving DecidableEq, Repr

/-- The `useState` state of the FigureCheck panel. -/
structure State where
  originalImage : Option String
  latestImage : Option String
  isViewingOriginal : Bool
  aspectRatio : String
  imageSize : String
  showDownloadMenu : Bool
  messages : List Message
  input : String
  isLoading : Bool
  pdfProcessing : Bool
deriving DecidableEq, Repr

/-- The initial state of the panel (the `useState` initial values). -/
def initialState : State :=
  { originalImage := none, latestImage := none, isViewingOriginal := false,
    aspectRatio := "1:1", imageSize := "1K", showDownloadMenu := false,
    messages := [], input := "", isLoading := false, pdfProcessing := false }

/-- The computed `activeImage`: the original when viewing it, the latest
draft otherwise. -/
def activeImage (s : State) : Option String :=
  if s.isViewingOriginal then s.originalImage else s.latestImage

/-- `loadImage`: installs the image as both original and latest, switches
to the latest view, downgrades the size mode to 1K, and appends the
editing-mode notice. -/
def loadImage (s : State) (imgStr sourceName : String) (now : Nat) : State :=
  { s with
      originalImage := some imgStr,
      latestImage := some imgStr,
      isViewingOriginal := false,
      imageSize := "1K",
      messages := s.messages ++
        [{ id := now, role := Role.model,
           text := "Loaded figure from " ++ sourceName ++ ". \n\nI am now in **Editing Mode** (powered by Nano Banana/Flash).\nYou can ask me to \"Remove background\", \"Change font to Arial\", etc.",
           timestamp := now }] }

/-- `handleSend` of the FigureCheck panel: returns early when there is
nothing to send (no text AND no active image) or a request is already in
flight; otherwise appends the user message, issues exactly one
`generateOrEditFigure` call (with the active image attached when one is
displayed), appends the model reply, and installs a returned image as the
new latest draft (also as the original when there was none). -/
def handleSend (s : State) (overrideText : Option String) (targetJournal : String) (now : Nat)
    (api : GenRequest → GenOutcome) : State × List GenRequest :=
  let userText := jsOrStr overrideText (jsTrim s.input)
  if (userText = "" ∧ ¬jsTruthy (activeImage s)) ∨ s.isLoading then (s, [])
  else
    let userMsg : Message :=
      { id := now, role := Role.user,
        text := if userText = "" then "(Requesting analysis)" else userText,
        timestamp := now }
    let act := activeImage s
    let out :=
      if jsTruthy act then
        let img := act.getD ""
        let pieces := jsSplit img ";base64,"
        let mimeTypePart := pieces.headD ""
        let base64Data := pieces[1]?
        let mimeType := (jsSplit mimeTypePart ":")[1]?
        generateOrEditFigure userText targetJournal s.aspectRatio s.imageSize base64Data mimeType api
      else
        generateOrEditFigure userText targetJournal s.aspectRatio s.imageSize none none api
    let aiMsg : Message := { id := now + 1, role := Role.model, text := out.result.text, timestamp := now }
    let s1 := { s with messages := s.messages ++ [userMsg, aiMsg], input := "", isLoading := false }
    if jsTruthy out.result.modifiedImage then
      let newImageStr := "data:image/png;base64," ++ out.result.modifiedImage.getD ""
      ({ s1 with
          latestImage := some newImageStr,
          originalImage := if jsTruthy s.originalImage then s.originalImage else some newImageStr,
          isViewingOriginal := false,
          messages := s1.messages ++
            [{ id := now + 2, role := Role.model,
               text := if jsTruthy act then "Figure updated. You can Toggle to Original to compare."
                       else "Generated figure displayed.",
               timestamp := now }] }, out.requests)
    else (s1, out.requests)

/-- The Enter-key handler of the FigureCheck textarea: it calls
`handleSend()` with no override text and no further gating. -/
def pressEnter (s : State) (targetJournal : String) (now : Nat)
    (api : GenRequest → GenOutcome) : State × List GenRequest :=
  handleSend s none targetJournal now api

/-- `handleReset`: when an original exists and the user confirms, reverts
the latest draft to the original, leaves the original view mode, and
appends the notice. -/
def handleReset (s : State) (confirm : Bool) (now : Nat) : State :=
  if jsTruthy s.originalImage ∧ confirm then
    { s with
        latestImage := s.originalImage,
        isViewingOriginal := false,
        messages := s.messages ++
          [{ id := now, role := Role.model, text := "Discarded edits. Back to original.",
             timestamp := now }] }
  else s

/-- The invariant of claim C10: the original image is absent exactly when
the latest image is absent. -/
def imagesInSync (s : State) : Prop :=
  s.originalImage = none ↔ s.latestImage = none

instance (s : State) : Decidable (imagesInSync s) := by
  unfold imagesInSync; infer_instance

end FigureCheck

/-! ## Helper lemmas -/

/-- `overKeyed` is the identity on a list with no matching key. -/
theorem overKeyed_skip {α : Type} (key : α → Nat) (k : Nat) (g : α → α) (l : List α)
    (h : ∀ x ∈ l, key x ≠ k) : overKeyed key k g l = l := by
  induction l with
  | nil => rfl
  | cons a t ih =>
      simp only [overKeyed, List.map_cons]
      rw [if_neg (h a (List.mem_cons_self a t))]
      have ht := ih (fun x hx => h x (List.mem_cons_of_mem a hx))
      simp only [overKeyed] at ht
      rw [ht]

/-- `overKeyed` on a list with a single matching element rewrites exactly
that element. -/
theorem overKeyed_one {α : Type} (key : α → Nat) (k : Nat) (g : α → α)
    (pre post : List α) (item : α)
    (hpre : ∀ x ∈ pre, key x ≠ k) (hpost : ∀ x ∈ post, key x ≠ k) (hit : key item = k) :
    overKeyed key k g (pre ++ item :: post) = pre ++ g item :: post := by
  simp only [overKeyed, List.map_append, List.map_cons]
  rw [if_pos hit]
  have h1 := overKeyed_skip key k g pre hpre
  have h2 := overKeyed_skip key k g post hpost
  simp only [overKeyed] at h1 h2
  rw [h1, h2]

/-- `jsSubstring0` is idempotent at the same bound. -/
theorem jsSubstring0_idem (s : String) (n : Nat) :
    jsSubstring0 (jsSubstring0 s n) n = jsSubstring0 s n := by
  simp [jsSubstring0, List.take_take]

/-- `jsSubstring0 s n` has length at most `n`. -/
theorem jsSubstring0_length_le (s : String) (n : Nat) :
    (jsSubstring0 s n).length ≤ n := by
  show (s.data.take n).length ≤ n
  rw [List.length_take]
  exact min_le_left n s.data.length

/-- Running the chunk loop over a message list that ends with the
streamed placeholder (whose text is the accumulator so far) rewrites the
placeholder to the accumulated concatenation of all chunk texts and
touches nothing else. -/
theorem streamChunks_spec (aiId : Nat) (chunks : List (Option String)) (acc : String)
    (pre : List ChatMessage) (m : ChatMessage)
    (hm : m.id = aiId) (hmt : m.text = acc) (hpre : ∀ x ∈ pre, x.id ≠ aiId) :
    streamChunks aiId acc chunks (pre ++ [m]) =
      pre ++ [{ m with text := chunks.foldl (fun a c => a ++ c.getD "") acc }] := by
  induction chunks generalizing acc m with
  | nil =>
      simp only [streamChunks, List.foldl_nil]
      rw [← hmt]
  | cons c rest ih =>
      cases c with
      | none =>
          simp only [streamChunks, List.foldl_cons, Option.getD_none, String.append_empty]
          exact ih acc m hm hmt
      | some t =>
          by_cases ht : t = ""
          · subst ht
            simp only [streamChunks, if_pos rfl, List.foldl_cons, Option.getD_some,
              String.append_empty]
            exact ih acc m hm hmt
          · simp only [streamChunks, if_neg ht, List.foldl_cons, Option.getD_some]
            have hset : setMsgText aiId (acc ++ t) (pre ++ [m]) =
                pre ++ [{ m with text := acc ++ t }] :=
              overKeyed_one ChatMessage.id aiId _ pre [] m hpre (by intro x hx; cases hx) hm
            rw [hset]
            exact ih (acc ++ t) { m with text := acc ++ t } hm rfl

/-- The history-level chunk loop of `Editor.handleSendChat` acts on the
unique history item with the given id exactly as the message-level chunk
loop acts on that item's thread. -/
theorem streamChunksH_spec (itemId aiId : Nat) (chunks : List (Option String)) (acc : String)
    (preH postH : List Editor.HistoryItem) (item : Editor.HistoryItem)
    (hpre : ∀ x ∈ preH, x.id ≠ itemId) (hpost : ∀ x ∈ postH, x.id ≠ itemId)
    (hit : item.id = itemId) :
    Editor.streamChunksH itemId aiId acc chunks (preH ++ item :: postH) =
      preH ++ { item with chatMessages := streamChunks aiId acc chunks item.chatMessages } :: postH := by
  induction chunks generalizing acc item with
  | nil => simp only [Editor.streamChunksH, streamChunks]
  | cons c rest ih =>
      cases c with
      | none =>
          simp only [Editor.streamChunksH, streamChunks]
          exact ih acc item hit
      | some t =>
          by_cases ht : t = ""
          · subst ht
            simp only [Editor.streamChunksH, streamChunks, if_pos rfl]
            exact ih acc item hit
          · simp only [Editor.streamChunksH, streamChunks, if_neg ht]
            have hset : Editor.setItemMsgText itemId aiId (acc ++ t) (preH ++ item :: postH) =
                preH ++ { item with chatMessages := setMsgText aiId (acc ++ t) item.chatMessages } :: postH :=
              overKeyed_one Editor.HistoryItem.id itemId _ preH postH item hpre hpost hit
            rw [hset]
            exact ih (acc ++ t) { item with chatMessages := setMsgText aiId (acc ++ t) item.chatMessages } hit

/-- The per-item rewrite performed by `toggleChat` on the history: the
matching item has exactly its `isChatOpen` flag flipped, any other item is
untouched. -/
def Editor.toggleFlipFn (itemId : Nat) : Editor.HistoryItem → Editor.HistoryItem :=
  fun item => if item.id = itemId then { item with isChatOpen := !item.isChatOpen } else item

/-- The history component of `toggleChatGo` is the pointwise flag flip,
independently of the session accumulator. -/
theorem toggleChatGo_snd (itemId : Nat) (acc : List (Nat × Nat) × Nat)
    (hist : List Editor.HistoryItem) :
    (Editor.toggleChatGo itemId acc hist).2 = hist.map (Editor.toggleFlipFn itemId) := by
  induction hist generalizing acc with
  | nil => rfl
  | cons item rest ih =>
      by_cases h : item.id = itemId
      · simp only [Editor.toggleChatGo, if_pos h, List.map_cons, Editor.toggleFlipFn]
        rw [ih]
      · simp only [Editor.toggleChatGo, if_neg h, List.map_cons, Editor.toggleFlipFn]
        rw [ih]

/-- The per-item flip is an involution. -/
theorem toggleFlipFn_involutive (itemId : Nat) (item : Editor.HistoryItem) :
    Editor.toggleFlipFn itemId (Editor.toggleFlipFn itemId item) = item := by
  cases item with
  | mk i ty inp outp ts msgs chatOpen tj =>
      by_cases h : i = itemId
      · simp [Editor.toggleFlipFn, h, Bool.not_not]
      · simp [Editor.toggleFlipFn, h]

/-- Mapping the per-item flip twice is the identity. -/
theorem map_toggleFlipFn_twice (itemId : Nat) (l : List Editor.HistoryItem) :
    (l.map (Editor.toggleFlipFn itemId)).map (Editor.toggleFlipFn itemId) = l := by
  induction l with
  | nil => rfl
  | cons a t ih =>
      simp only [List.map_cons]
      rw [toggleFlipFn_involutive, ih]

/-- Claim C7: for every history item id, `toggleChat(id)` flips exactly the
`isChatOpen` flag of the items with that id and changes no other field of
any item; applying it twice restores the history exactly. -/
theorem claim_C7_toggleChat (s : Editor.State) (itemId : Nat) :
    (Editor.toggleChat s itemId).history = s.history.map (Editor.toggleFlipFn itemId) ∧
    (Editor.toggleChat (Editor.toggleChat s itemId) itemId).history = s.history := by
  constructor
  · exact toggleChatGo_snd itemId _ s.history
  · show (Editor.toggleChatGo itemId _ (Editor.toggleChat s itemId).history).2 = s.history
    rw [toggleChatGo_snd]
    have h1 : (Editor.toggleChat s itemId).history = s.history.map (Editor.toggleFlipFn itemId) :=
      toggleChatGo_snd itemId _ s.history
    rw [h1, map_toggleFlipFn_twice]

/-- Claim C5: a confirmed `clearHistory` empties the history and the keyed
session map; a confirmed `clearChat` installs a fresh session and leaves
exactly the single post-clear greeting message — from any prior state. -/
theorem claim_C5_clearing (s : Editor.State) (cs : ChatAssistant.State) (now fresh : Nat) :
    ((Editor.clearHistory s true).history = [] ∧
     (Editor.clearHistory s true).chatSessions = []) ∧
    ((ChatAssistant.clearChat cs true now fresh).messages =
       [{ id := now, role := Role.model,
          text := "Conversation cleared. How can I help you now?" }] ∧
     (ChatAssistant.clearChat cs true now fresh).chatSession = some fresh ∧
     (ChatAssistant.clearChat cs true now fresh).messages.length = 1) := by
  refine ⟨⟨rfl, rfl⟩, rfl, rfl, rfl⟩

/-- Every branch of `analyzeManuscriptText` issues the one built request. -/
theorem analyzeManuscriptText_one_request (text : String) (ty : AnalysisType)
    (tj : String) (api : GenRequest → GenOutcome) :
    (analyzeManuscriptText text ty tj api).requests.length = 1 := by
  simp only [analyzeManuscriptText]
  split <;> rfl

/-- Every branch of `generateCoverLetter` issues the one built request. -/
theorem generateCoverLetter_one_request (params : CoverLetterParams) (tj : String)
    (api : GenRequest → GenOutcome) :
    (generateCoverLetter params tj api).requests.length = 1 := by
  simp only [generateCoverLetter]
  split <;> rfl

/-- Every branch of `generateOrEditFigure` issues the one built request. -/
theorem generateOrEditFigure_one_request (prompt tj ar sz : String)
    (b64 mime : Option String) (api : GenRequest → GenOutcome) :
    (generateOrEditFigure prompt tj ar sz b64 mime api).requests.length = 1 := by
  simp only [generateOrEditFigure]
  split
  · rfl
  · split
    · rfl
    · rfl
    · split <;> rfl

/-- Every branch of `getJournalGuidelines` issues the one built request. -/
theorem getJournalGuidelines_one_request (jn : String)
    (pg : String → Option JournalGuidelines) (api : GenRequest → GenOutcome) :
    (getJournalGuidelines jn pg api).requests.length = 1 := by
  simp only [getJournalGuidelines]
  split
  · rfl
  · split
    · split <;> rfl
    · rfl

/-- Every branch of `suggestTargetJournals` issues the one built request. -/
theorem suggestTargetJournals_one_request (t a f : String)
    (ps : String → Option (List JournalSuggestion)) (api : GenRequest → GenOutcome) :
    (suggestTargetJournals t a f ps api).requests.length = 1 := by
  simp only [suggestTargetJournals]
  split
  · rfl
  · split
    · split <;> rfl
    · rfl

/-- Every branch of `evaluateJournalFit` issues the one built request. -/
theorem evaluateJournalFit_one_request (t a f jn : String)
    (pe : String → Option JournalEvaluationResult) (api : GenRequest → GenOutcome) :
    (evaluateJournalFit t a f jn pe api).requests.length = 1 := by
  simp only [evaluateJournalFit]
  split
  · rfl
  · split
    · split <;> rfl
    · rfl

/-- `FigureCheck.handleSend` issues at most one request per invocation
(none when the guard returns early, exactly the one `generateOrEditFigure`
request otherwise). -/
theorem figureCheck_handleSend_le_one_request (s : FigureCheck.State)
    (o : Option String) (tj : String) (now : Nat) (api : GenRequest → GenOutcome) :
    (FigureCheck.handleSend s o tj now api).2.length ≤ 1 := by
  simp only [FigureCheck.handleSend]
  split
  · simp
  · split <;> split <;>
      (apply le_of_eq; apply generateOrEditFigure_one_request)

/-- Claim C9: each invocation of a service-layer feature function issues
exactly one `generateContent` request, with no retry on failure (the count
is one for every API outcome, including a thrown call), and one
FigureCheck submission never issues more than one request. -/
theorem claim_C9_one_call_per_invocation :
    (∀ text ty tj api, (analyzeManuscriptText text ty tj api).requests.length = 1) ∧
    (∀ params tj api, (generateCoverLetter params tj api).requests.length = 1) ∧
    (∀ prompt tj ar sz b64 mime api,
       (generateOrEditFigure prompt tj ar sz b64 mime api).requests.length = 1) ∧
    (∀ jn pg api, (getJournalGuidelines jn pg api).requests.length = 1) ∧
    (∀ t a f ps api, (suggestTargetJournals t a f ps api).requests.length = 1) ∧
    (∀ t a f jn pe api, (evaluateJournalFit t a f jn pe api).requests.length = 1) ∧
    (∀ s o tj now api, (FigureCheck.handleSend s o tj now api).2.length ≤ 1) :=
  ⟨analyzeManuscriptText_one_request, generateCoverLetter_one_request,
   generateOrEditFigure_one_request, getJournalGuidelines_one_request,
   suggestTargetJournals_one_request, evaluateJournalFit_one_request,
   figureCheck_handleSend_le_one_request⟩

/-- Claim C8: the prompts of `generateCoverLetter`, `suggestTargetJournals`
and `evaluateJournalFit` depend only on the first 50,000 / 60,000 / 50,000
characters of the manuscript full text respectively — the prompt built
from the full text equals the prompt built from the truncation, whose
length never exceeds the limit — and `generateCoverLetter` issues an
identical request for the truncated manuscript. -/
theorem claim_C8_truncation (params : CoverLetterParams)
    (targetJournal title abstract fullText journalName : String)
    (api : GenRequest → GenOutcome) :
    (coverLetterPrompt params targetJournal =
       coverLetterPrompt { params with manuscriptText := jsSubstring0 params.manuscriptText 50000 } targetJournal) ∧
    (jsSubstring0 params.manuscriptText 50000).length ≤ 50000 ∧
    (suggestTargetJournalsPrompt title abstract fullText =
       suggestTargetJournalsPrompt title abstract (jsSubstring0 fullText 60000)) ∧
    (jsSubstring0 fullText 60000).length ≤ 60000 ∧
    (evaluateJournalFitPrompt title abstract fullText journalName =
       evaluateJournalFitPrompt title abstract (jsSubstring0 fullText 50000) journalName) ∧
    (jsSubstring0 fullText 50000).length ≤ 50000 ∧
    (generateCoverLetter params targetJournal api =
       generateCoverLetter { params with manuscriptText := jsSubstring0 params.manuscriptText 50000 } targetJournal api) := by
  have hc : coverLetterPrompt params targetJournal =
      coverLetterPrompt { params with manuscriptText := jsSubstring0 params.manuscriptText 50000 } targetJournal := by
    simp [coverLetterPrompt, jsSubstring0_idem]
  refine ⟨hc, jsSubstring0_length_le _ _, ?_, jsSubstring0_length_le _ _, ?_,
    jsSubstring0_length_le _ _, ?_⟩
  · simp [suggestTargetJournalsPrompt, jsSubstring0_idem]
  · simp [evaluateJournalFitPrompt, jsSubstring0_idem]
  · simp only [generateCoverLetter]
    rw [hc]

/-- Claim C1 counterexample: when the external call throws, the catch of
`getJournalGuidelines` substitutes `null` (not a human-readable error
string — the returned value carries no string at all), the catch of
`suggestTargetJournals` substitutes the empty array, and the catch of
`evaluateJournalFit` substitutes `null`; the substituted failure value of
`getJournalGuidelines` is moreover identical to its non-error result for
an empty response, so no error string reaches the caller. -/
theorem claim_C1_counterexample :
    (getJournalGuidelines "Nature Cell Biology" (fun _ => none) throwingGen).result = none ∧
    (suggestTargetJournals "Title" "Abstract" "Full text" (fun _ => none) throwingGen).result = [] ∧
    (evaluateJournalFit "Title" "Abstract" "Full text" "Nature Cell Biology" (fun _ => none) throwingGen).result = none ∧
    (getJournalGuidelines "Nature Cell Biology" (fun _ => none) throwingGen).result =
      (getJournalGuidelines "Nature Cell Biology" (fun _ => none)
        (fun _ => GenOutcome.ok {})).result :=
  ⟨rfl, rfl, rfl, rfl⟩

/-- Claim C1 (amended): when the external call throws, every service
function logs to the console and substitutes a fixed fallback value in
place of the expected result — a fixed human-readable error string for
`analyzeManuscriptText`, `generateCoverLetter` and `generateOrEditFigure`,
`null` for `getJournalGuidelines` and `evaluateJournalFit`, and the empty
array for `suggestTargetJournals`. -/
theorem claim_C1_catch_substitutes_fallback (text : String) (ty : AnalysisType)
    (tj : String) (params : CoverLetterParams) (prompt ar sz : String)
    (b64 mime : Option String) (jn t a f : String)
    (pg : String → Option JournalGuidelines)
    (ps : String → Option (List JournalSuggestion))
    (pe : String → Option JournalEvaluationResult) :
    ((analyzeManuscriptText text ty tj throwingGen).result =
       "Error: Unable to analyze text at this time. Please check your input and try again." ∧
     (analyzeManuscriptText text ty tj throwingGen).logs = ["Error analyzing text:"]) ∧
    ((generateCoverLetter params tj throwingGen).result = "Error generating cover letter." ∧
     (generateCoverLetter params tj throwingGen).logs = ["Error generating cover letter:"]) ∧
    ((generateOrEditFigure prompt tj ar sz b64 mime throwingGen).result =
       { text := "Error processing figure request. Please ensure you have selected a valid API key.",
         modifiedImage := none } ∧
     (generateOrEditFigure prompt tj ar sz b64 mime throwingGen).logs = ["Error processing figure:"]) ∧
    ((getJournalGuidelines jn pg throwingGen).result = none ∧
     (getJournalGuidelines jn pg throwingGen).logs = ["Error fetching guidelines:"]) ∧
    ((suggestTargetJournals t a f ps throwingGen).result = [] ∧
     (suggestTargetJournals t a f ps throwingGen).logs = ["Error suggesting journals:"]) ∧
    ((evaluateJournalFit t a f jn pe throwingGen).result = none ∧
     (evaluateJournalFit t a f jn pe throwingGen).logs = ["Error evaluating journal fit:"]) :=
  ⟨⟨rfl, rfl⟩, ⟨rfl, rfl⟩, ⟨rfl, rfl⟩, ⟨rfl, rfl⟩, ⟨rfl, rfl⟩, ⟨rfl, rfl⟩⟩

/-- A FigureCheck state with a figure loaded (as after `loadImage`) and an
empty input box. -/
def fcLoadedEx : FigureCheck.State :=
  { FigureCheck.initialState with
      originalImage := some "data:image/png;base64,QUJD",
      latestImage := some "data:image/png;base64,QUJD" }

/-- Claim C2 counterexample: in the FigureCheck panel with an image loaded
and an empty input box (a reachable state: load an image, then press Enter
in the empty textarea), `handleSend` is NOT a no-op — it issues one
request, appends two messages (the `(Requesting analysis)` user message
and the model reply), and changes the state. -/
theorem claim_C2_counterexample :
    fcLoadedEx.input = "" ∧
    (FigureCheck.handleSend fcLoadedEx none "Nature Cell Biology" 5 throwingGen).2.length = 1 ∧
    (FigureCheck.handleSend fcLoadedEx none "Nature Cell Biology" 5 throwingGen).1.messages.length =
      fcLoadedEx.messages.length + 2 ∧
    (FigureCheck.handleSend fcLoadedEx none "Nature Cell Biology" 5 throwingGen).1 ≠ fcLoadedEx := by
  refine ⟨rfl, rfl, rfl, ?_⟩
  decide

/-- Claim C2 (amended): submitting empty or whitespace-only input is a
no-op (state unchanged, no request issued) for the Editor's
`handleAnalyze` and the ChatAssistant's `handleSend` in every state, and
for the FigureCheck panel's `handleSend` exactly when no active image is
displayed; with an image loaded, an empty submission proceeds as an
analysis request (see the counterexample). -/
theorem claim_C2_empty_submit_noop :
    (∀ (s : Editor.State) (tj : String) (now : Nat) (api : GenRequest → GenOutcome),
       jsTrim s.inputText = "" → Editor.handleAnalyze s tj now api = (s, [])) ∧
    (∀ (s : ChatAssistant.State) (now : Nat) (chatApi : Nat → String → ChatOutcome),
       jsTrim s.input = "" → ChatAssistant.handleSend s now chatApi = (s, [])) ∧
    (∀ (s : FigureCheck.State) (tj : String) (now : Nat) (api : GenRequest → GenOutcome),
       jsTrim s.input = "" → jsTruthy (FigureCheck.activeImage s) = false →
       FigureCheck.handleSend s none tj now api = (s, [])) := by
  refine ⟨?_, ?_, ?_⟩
  · intro s tj now api h
    simp [Editor.handleAnalyze, h]
  · intro s now chatApi h
    simp [ChatAssistant.handleSend, h]
  · intro s tj now api h himg
    simp [FigureCheck.handleSend, jsOrStr, h, himg]

/-- Witness for the amended claim C2 at concrete states: a blank Editor,
a blank ChatAssistant, and a FigureCheck panel with no image. -/
theorem claim_C2_witness :
    (jsTrim "  " = "" ∧
      Editor.handleAnalyze
        { inputText := "  ", history := [], isLoading := false,
          analysisType := AnalysisType.IMPACT_POLISH, expandedInputs := [],
          chatSessions := [], chatInputs := [], nextSession := 0 }
        "Nature Cell Biology" 3 throwingGen =
      ({ inputText := "  ", history := [], isLoading := false,
         analysisType := AnalysisType.IMPACT_POLISH, expandedInputs := [],
         chatSessions := [], chatInputs := [], nextSession := 0 }, [])) ∧
    (jsTrim FigureCheck.initialState.input = "" ∧
      jsTruthy (FigureCheck.activeImage FigureCheck.initialState) = false ∧
      FigureCheck.handleSend FigureCheck.initialState none "Nature Cell Biology" 3 throwingGen =
        (FigureCheck.initialState, [])) :=
  ⟨⟨by decide,
    claim_C2_empty_submit_noop.1 _ "Nature Cell Biology" 3 throwingGen (by decide)⟩,
   ⟨by decide, by decide,
    claim_C2_empty_submit_noop.2.2 _ "Nature Cell Biology" 3 throwingGen (by decide) (by decide)⟩⟩

/-- A ChatAssistant state mid-stream: the loading flag is set (a request
is in flight, the placeholder is still streaming) and the user has typed
a follow-up into the input box. -/
def caLoadingEx : ChatAssistant.State :=
  { messages := [{ id := 1, role := Role.user, text := "first question" },
                 { id := 2, role := Role.model, text := "", isStreaming := true }],
    input := "a follow-up typed while streaming",
    isLoading := true,
    chatSession := some 0 }

/-- A chat-stream oracle that immediately completes with no chunks. -/
def chatApiEmpty : Nat → String → ChatOutcome := fun _ _ => ChatOutcome.ok []

/-- Claim C3 counterexample: with the ChatAssistant's loading flag set and
non-blank input (a reachable state: send a message, then type while the
response streams), the Enter-key handler — which calls `handleSend`
directly — starts a second stream request; the loading flag does not gate
this submission path. -/
theorem claim_C3_counterexample :
    caLoadingEx.isLoading = true ∧
    (ChatAssistant.pressEnter caLoadingEx 7 chatApiEmpty).2 =
      [(0, "a follow-up typed while streaming")] :=
  ⟨rfl, rfl⟩

/-- Claim C3 (amended): while a panel's loading flag is set, the
FigureCheck `handleSend` starts no request on any submission path (it
checks the flag itself), and the Editor's Run Analysis button and the
ChatAssistant's send button start none because they are disabled while
loading; the ChatAssistant `handleSend` itself does not check the flag,
so its Enter-key path can start a second request (see the
counterexample). -/
theorem claim_C3_loading_gates :
    (∀ (s : FigureCheck.State) (o : Option String) (tj : String) (now : Nat)
       (api : GenRequest → GenOutcome),
       s.isLoading = true → FigureCheck.handleSend s o tj now api = (s, [])) ∧
    (∀ (s : Editor.State) (tj : String) (now : Nat) (api : GenRequest → GenOutcome),
       s.isLoading = true → Editor.clickAnalyze s tj now api = (s, [])) ∧
    (∀ (s : ChatAssistant.State) (now : Nat) (chatApi : Nat → String → ChatOutcome),
       s.isLoading = true → ChatAssistant.clickSend s now chatApi = (s, [])) := by
  refine ⟨?_, ?_, ?_⟩
  · intro s o tj now api h
    simp [FigureCheck.handleSend, h]
  · intro s tj now api h
    simp [Editor.clickAnalyze, Editor.analyzeButtonDisabled, h]
  · intro s now chatApi h
    simp [ChatAssistant.clickSend, ChatAssistant.sendButtonDisabled, h]

/-- Witness for the amended claim C3 at a concrete loading state of each
panel. -/
theorem claim_C3_witness :
    (({ fcLoadedEx with isLoading := true } : FigureCheck.State).isLoading = true ∧
      FigureCheck.handleSend { fcLoadedEx with isLoading := true } none "Nature Cell Biology" 9 throwingGen =
        ({ fcLoadedEx with isLoading := true }, [])) ∧
    (caLoadingEx.isLoading = true ∧
      ChatAssistant.clickSend caLoadingEx 9 chatApiEmpty = (caLoadingEx, [])) :=
  ⟨⟨rfl, claim_C3_loading_gates.1 _ none "Nature Cell Biology" 9 throwingGen rfl⟩,
   ⟨rfl, claim_C3_loading_gates.2.2 _ 9 chatApiEmpty rfl⟩⟩

/-- The request list of `generateOrEditFigure` is exactly the one built
request, for every API outcome. -/
theorem generateOrEditFigure_requests_eq (prompt tj ar sz : String)
    (b64 mime : Option String) (api : GenRequest → GenOutcome) :
    (generateOrEditFigure prompt tj ar sz b64 mime api).requests =
      [figureRequest prompt tj ar sz b64 mime] := by
  simp only [generateOrEditFigure]
  split
  · rfl
  · split
    · rfl
    · rfl
    · split <;> rfl

/-- Claim C6: `generateOrEditFigure` selects the Pro image model exactly
when the requested size is 2K and no input image is provided; in every
other case it uses the Flash image model; and when an input image is
provided it is the first part of the request payload. -/
theorem claim_C6_figure_model_selection (prompt tj ar sz : String)
    (b64 mime : Option String) (api : GenRequest → GenOutcome) :
    ∃ req : GenRequest,
      (generateOrEditFigure prompt tj ar sz b64 mime api).requests = [req] ∧
      (req.model = PRO_IMAGE_MODEL ↔ (sz = "2K" ∧ hasInputImage b64 mime = false)) ∧
      (req.model = PRO_IMAGE_MODEL ∨ req.model = FLASH_IMAGE_MODEL) ∧
      (hasInputImage b64 mime = true →
        ∃ b m, b64 = some b ∧ mime = some m ∧
          req.parts.head? = some (ReqPart.inlineData b m)) := by
  refine ⟨figureRequest prompt tj ar sz b64 mime,
    generateOrEditFigure_requests_eq prompt tj ar sz b64 mime api, ?_, ?_, ?_⟩
  · by_cases h2 : sz = "2K" <;> by_cases hImg : hasInputImage b64 mime
    · simp [figureRequest, h2, hImg]
      decide
    · simp [figureRequest, h2, hImg]
    · simp [figureRequest, h2, hImg]
      decide
    · simp [figureRequest, h2, hImg]
      decide
  · by_cases h2 : sz = "2K" <;> by_cases hImg : hasInputImage b64 mime <;>
      simp [figureRequest, h2, hImg]
  · intro hImg
    have hb : jsTruthy b64 = true ∧ jsTruthy mime = true := by
      have := hImg
      unfold hasInputImage at this
      exact And.intro (Bool.and_elim_left this) (Bool.and_elim_right this)
    obtain ⟨hb1, hb2⟩ := hb
    cases b64 with
    | none => simp [jsTruthy] at hb1
    | some b =>
        cases mime with
        | none => simp [jsTruthy] at hb2
        | some m =>
            have hbne : b ≠ "" := by simpa [jsTruthy] using hb1
            have hmne : m ≠ "" := by simpa [jsTruthy] using hb2
            refine ⟨b, m, rfl, rfl, ?_⟩
            simp [figureRequest, hImg, hbne, hmne]

/-- Witness for claim C6 at a concrete edit request (2K requested, input
image provided: the Flash model must be used and the image is the first
payload part). -/
theorem claim_C6_witness :
    hasInputImage (some "QUJD") (some "image/png") = true ∧
    (∃ req : GenRequest,
       (generateOrEditFigure "fix the font" "Nature Cell Biology" "1:1" "2K"
          (some "QUJD") (some "image/png") throwingGen).requests = [req] ∧
       (req.model = PRO_IMAGE_MODEL ↔
         ("2K" = "2K" ∧ hasInputImage (some "QUJD") (some "image/png") = false)) ∧
       (req.model = PRO_IMAGE_MODEL ∨ req.model = FLASH_IMAGE_MODEL) ∧
       (hasInputImage (some "QUJD") (some "image/png") = true →
         ∃ b m, (some "QUJD" : Option String) = some b ∧
           (some "image/png" : Option String) = some m ∧
           req.parts.head? = some (ReqPart.inlineData b m))) :=
  ⟨by decide,
   claim_C6_figure_model_selection "fix the font" "Nature Cell Biology" "1:1" "2K"
     (some "QUJD") (some "image/png") throwingGen⟩

/-- The original-image update of `handleSend` when a modified image comes
back never stores `null`: it keeps a truthy original or installs the new
image. -/
theorem origUpdate_ne_none (orig : Option String) (x : String) :
    (if jsTruthy orig = true then orig else some x) ≠ none := by
  split
  · rename_i htr
    intro hn
    rw [hn] at htr
    simp [jsTruthy] at htr
  · simp

/-- Claim C10: `originalImage` is absent exactly when `latestImage` is
absent — the invariant holds initially and is preserved by `loadImage`,
`handleSend` and `handleReset` from any state satisfying it — and
immediately after a confirmed `handleReset` the latest image equals the
original and the original view mode is off. -/
theorem claim_C10_image_invariant :
    FigureCheck.imagesInSync FigureCheck.initialState ∧
    (∀ (s : FigureCheck.State) (img src : String) (now : Nat),
       FigureCheck.imagesInSync s →
       FigureCheck.imagesInSync (FigureCheck.loadImage s img src now)) ∧
    (∀ (s : FigureCheck.State) (o : Option String) (tj : String) (now : Nat)
       (api : GenRequest → GenOutcome),
       FigureCheck.imagesInSync s →
       FigureCheck.imagesInSync (FigureCheck.handleSend s o tj now api).1) ∧
    (∀ (s : FigureCheck.State) (c : Bool) (now : Nat),
       FigureCheck.imagesInSync s →
       FigureCheck.imagesInSync (FigureCheck.handleReset s c now)) ∧
    (∀ (s : FigureCheck.State) (now : Nat),
       jsTruthy s.originalImage = true →
       (FigureCheck.handleReset s true now).latestImage =
         (FigureCheck.handleReset s true now).originalImage ∧
       (FigureCheck.handleReset s true now).isViewingOriginal = false) := by
  refine ⟨by simp [FigureCheck.imagesInSync, FigureCheck.initialState], ?_, ?_, ?_, ?_⟩
  · intro s img src now _
    simp [FigureCheck.imagesInSync, FigureCheck.loadImage]
  · intro s o tj now api h
    simp only [FigureCheck.handleSend]
    split
    · exact h
    · split <;> split <;>
        first
          | exact h
          | exact iff_of_false (origUpdate_ne_none s.originalImage _) (Option.some_ne_none _)
  · intro s c now h
    simp only [FigureCheck.handleReset]
    split
    · exact Iff.rfl
    · exact h
  · intro s now h
    simp only [FigureCheck.handleReset]
    rw [if_pos ⟨h, trivial⟩]
    exact ⟨rfl, rfl⟩

/-- A FigureCheck state with an edited figure (latest differs from the
original). -/
def fc10Ex : FigureCheck.State :=
  { FigureCheck.initialState with
      originalImage := some "data:image/png;base64,QUJD",
      latestImage := some "data:image/png;base64,RUZH" }

/-- Witness for claim C10 at a concrete edited state: the invariant holds,
is preserved by a send, and a confirmed reset reverts the latest image and
leaves the original view off. -/
theorem claim_C10_witness :
    jsTruthy fc10Ex.originalImage = true ∧
    ((FigureCheck.handleReset fc10Ex true 3).latestImage =
       (FigureCheck.handleReset fc10Ex true 3).originalImage ∧
     (FigureCheck.handleReset fc10Ex true 3).isViewingOriginal = false) ∧
    FigureCheck.imagesInSync fc10Ex ∧
    FigureCheck.imagesInSync
      (FigureCheck.handleSend fc10Ex none "Nature Cell Biology" 4 throwingGen).1 :=
  ⟨by decide,
   claim_C10_image_invariant.2.2.2.2 fc10Ex 3 (by decide),
   by decide,
   claim_C10_image_invariant.2.2.1 fc10Ex none "Nature Cell Biology" 4 throwingGen (by decide)⟩

/-- Claim C4: for every sequence of streamed chunks, the streamed model
message ends with text equal to the concatenation, in arrival order, of
the text fields of all chunks, and its `isStreaming` flag cleared — for
the ChatAssistant's `handleSend` and the Editor's per-item
`handleSendChat` (the freshness hypotheses say the allocated message id
does not collide with an existing one, and for the Editor that the item
id is unique in the history). -/
theorem claim_C4_stream_concat :
    (∀ (s : ChatAssistant.State) (now sess : Nat)
       (chatApi : Nat → String → ChatOutcome) (chunks : List (Option String)),
       jsTrim s.input ≠ "" →
       s.chatSession = some sess →
       chatApi sess (jsTrim s.input) = ChatOutcome.ok chunks →
       (∀ msg ∈ s.messages, msg.id ≠ now + 1) →
       (ChatAssistant.handleSend s now chatApi).1.messages =
         s.messages ++
           [{ id := now, role := Role.user, text := jsTrim s.input },
            { id := now + 1, role := Role.model, text := concatChunks chunks,
              isStreaming := false }]) ∧
    (∀ (s : Editor.State) (itemId now sess : Nat) (inp : String)
       (chatApi : Nat → String → ChatOutcome) (chunks : List (Option String))
       (preH postH : List Editor.HistoryItem) (item : Editor.HistoryItem),
       assocGet s.chatInputs itemId = some inp →
       jsTrim inp ≠ "" →
       assocGet s.chatSessions itemId = some sess →
       chatApi sess inp = ChatOutcome.ok chunks →
       s.history = preH ++ item :: postH →
       item.id = itemId →
       (∀ x ∈ preH, x.id ≠ itemId) →
       (∀ x ∈ postH, x.id ≠ itemId) →
       (∀ msg ∈ item.chatMessages, msg.id ≠ now + 1) →
       (Editor.handleSendChat s itemId now chatApi).1.history =
         preH ++ { item with chatMessages := item.chatMessages ++
             [{ id := now, role := Role.user, text := inp },
              { id := now + 1, role := Role.model, text := concatChunks chunks,
                isStreaming := false }] } :: postH) := by
  constructor
  · intro s now sess chatApi chunks hne hsess hok hfresh
    have hufresh : ∀ x ∈ s.messages ++
        [({ id := now, role := Role.user, text := jsTrim s.input } : ChatMessage)],
        x.id ≠ now + 1 := by
      intro x hx
      rcases List.mem_append.mp hx with hx | hx
      · exact hfresh x hx
      · rcases List.mem_singleton.mp hx with rfl
        exact Nat.ne_of_lt (Nat.lt_succ_self now)
    simp only [ChatAssistant.handleSend, if_neg hne, hsess, hok]
    have hsplit : s.messages ++
        [({ id := now, role := Role.user, text := jsTrim s.input } : ChatMessage),
         ({ id := now + 1, role := Role.model, text := "", isStreaming := true } : ChatMessage)] =
        (s.messages ++ [({ id := now, role := Role.user, text := jsTrim s.input } : ChatMessage)]) ++
        [({ id := now + 1, role := Role.model, text := "", isStreaming := true } : ChatMessage)] := by
      simp
    rw [hsplit,
      streamChunks_spec (now + 1) chunks ""
        (s.messages ++ [({ id := now, role := Role.user, text := jsTrim s.input } : ChatMessage)])
        ({ id := now + 1, role := Role.model, text := "", isStreaming := true } : ChatMessage)
        rfl rfl hufresh]
    rw [setMsgDone,
      overKeyed_one ChatMessage.id (now + 1) _
        (s.messages ++ [({ id := now, role := Role.user, text := jsTrim s.input } : ChatMessage)])
        [] _ hufresh (by intro x hx; cases hx) rfl]
    simp [concatChunks]
  · intro s itemId now sess inp chatApi chunks preH postH item
      hinp hne hsess hok hhist hit hpre hpost hfresh
    have hufresh : ∀ x ∈ item.chatMessages ++
        [({ id := now, role := Role.user, text := inp } : ChatMessage)],
        x.id ≠ now + 1 := by
      intro x hx
      rcases List.mem_append.mp hx with hx | hx
      · exact hfresh x hx
      · rcases List.mem_singleton.mp hx with rfl
        exact Nat.ne_of_lt (Nat.lt_succ_self now)
    simp only [Editor.handleSendChat, hinp, if_neg hne, hsess, hok]
    rw [hhist]
    have h1 : Editor.addMsgToItem itemId
        ({ id := now, role := Role.user, text := inp } : ChatMessage)
        (preH ++ item :: postH) =
        preH ++ ({ item with chatMessages := item.chatMessages ++
          [{ id := now, role := Role.user, text := inp }] } : Editor.HistoryItem) :: postH :=
      overKeyed_one Editor.HistoryItem.id itemId _ preH postH item hpre hpost hit
    rw [h1]
    have h2 : Editor.addMsgToItem itemId
        ({ id := now + 1, role := Role.model, text := "", isStreaming := true } : ChatMessage)
        (preH ++ ({ item with chatMessages := item.chatMessages ++
          [{ id := now, role := Role.user, text := inp }] } : Editor.HistoryItem) :: postH) =
        preH ++ ({ item with chatMessages := (item.chatMessages ++
          [{ id := now, role := Role.user, text := inp }]) ++
          [{ id := now + 1, role := Role.model, text := "", isStreaming := true }] } : Editor.HistoryItem) :: postH :=
      overKeyed_one Editor.HistoryItem.id itemId _ preH postH _ hpre hpost hit
    rw [h2]
    have h3 : Editor.streamChunksH itemId (now + 1) "" chunks
        (preH ++ ({ item with chatMessages := (item.chatMessages ++
          [{ id := now, role := Role.user, text := inp }]) ++
          [{ id := now + 1, role := Role.model, text := "", isStreaming := true }] } : Editor.HistoryItem) :: postH) =
        preH ++ ({ item with chatMessages := (streamChunks (now + 1) "" chunks
          ((item.chatMessages ++ [{ id := now, role := Role.user, text := inp }]) ++
           [{ id := now + 1, role := Role.model, text := "", isStreaming := true }])) } : Editor.HistoryItem) :: postH :=
      streamChunksH_spec itemId (now + 1) chunks "" preH postH _ hpre hpost hit
    rw [h3]
    have h4 : streamChunks (now + 1) "" chunks
        ((item.chatMessages ++ [({ id := now, role := Role.user, text := inp } : ChatMessage)]) ++
         [({ id := now + 1, role := Role.model, text := "", isStreaming := true } : ChatMessage)]) =
        (item.chatMessages ++ [({ id := now, role := Role.user, text := inp } : ChatMessage)]) ++
        [({ id := now + 1, role := Role.model, text := concatChunks chunks,
            isStreaming := true } : ChatMessage)] :=
      streamChunks_spec (now + 1) chunks ""
        (item.chatMessages ++ [({ id := now, role := Role.user, text := inp } : ChatMessage)])
        ({ id := now + 1, role := Role.model, text := "", isStreaming := true } : ChatMessage)
        rfl rfl hufresh
    rw [h4]
    have h5 : Editor.setItemMsgDone itemId (now + 1)
        (preH ++ ({ item with chatMessages :=
          (item.chatMessages ++ [{ id := now, role := Role.user, text := inp }]) ++
          [{ id := now + 1, role := Role.model, text := concatChunks chunks,
             isStreaming := true }] } : Editor.HistoryItem) :: postH) =
        preH ++ ({ item with chatMessages := (setMsgDone (now + 1)
          ((item.chatMessages ++ [{ id := now, role := Role.user, text := inp }]) ++
           [{ id := now + 1, role := Role.model, text := concatChunks chunks,
              isStreaming := true }])) } : Editor.HistoryItem) :: postH :=
      overKeyed_one Editor.HistoryItem.id itemId _ preH postH _ hpre hpost hit
    rw [h5]
    have h6 : setMsgDone (now + 1)
        ((item.chatMessages ++ [({ id := now, role := Role.user, text := inp } : ChatMessage)]) ++
         [({ id := now + 1, role := Role.model, text := concatChunks chunks,
             isStreaming := true } : ChatMessage)]) =
        (item.chatMessages ++ [({ id := now, role := Role.user, text := inp } : ChatMessage)]) ++
        [({ id := now + 1, role := Role.model, text := concatChunks chunks,
            isStreaming := false } : ChatMessage)] :=
      overKeyed_one ChatMessage.id (now + 1) _
        (item.chatMessages ++ [({ id := now, role := Role.user, text := inp } : ChatMessage)])
        [] _ hufresh (by intro x hx; cases hx) rfl
    rw [h6]
    simp

/-- A ChatAssistant state ready to send a question. -/
def caEx4 : ChatAssistant.State :=
  { messages := [{ id := 0, role := Role.model, text := "Hello! I am your research assistant." }],
    input := "Which statistical test should I use?",
    isLoading := false,
    chatSession := some 5 }

/-- A chat-stream oracle delivering four chunks (one with no text, one
empty). -/
def chatApi4 : Nat → String → ChatOutcome :=
  fun _ _ => ChatOutcome.ok [some "Use ", none, some "ANOVA", some ""]

/-- Witness for claim C4 at a concrete send: all hypotheses hold at
`caEx4` and the streamed message ends with the chunk concatenation
`"Use ANOVA"` and a cleared streaming flag. -/
theorem claim_C4_witness :
    jsTrim caEx4.input ≠ "" ∧
    caEx4.chatSession = some 5 ∧
    chatApi4 5 (jsTrim caEx4.input) =
      ChatOutcome.ok [some "Use ", none, some "ANOVA", some ""] ∧
    (∀ msg ∈ caEx4.messages, msg.id ≠ 10 + 1) ∧
    concatChunks [some "Use ", none, some "ANOVA", some ""] = "Use ANOVA" ∧
    (ChatAssistant.handleSend caEx4 10 chatApi4).1.messages =
      caEx4.messages ++
        [{ id := 10, role := Role.user, text := jsTrim caEx4.input },
         { id := 11, role := Role.model,
           text := concatChunks [some "Use ", none, some "ANOVA", some ""],
           isStreaming := false }] :=
  ⟨by decide, rfl, rfl, by decide, by decide,
   claim_C4_stream_concat.1 caEx4 10 5 chatApi4
     [some "Use ", none, some "ANOVA", some ""] (by decide) rfl rfl (by decide)⟩
